import Mathlib

/-!
Verification of the ACPA (Adaptive Climate Policy Analyst) orchestration core.

This file gives a shallow embedding of the four agents and the orchestrator
found in the repository (base.ts, ingestion, analysis in part_001,
synthesis.ts, supervisor in agents.test.ts, orchestrator.ts), and proves
properties of that embedding.

Modelling conventions:
* TypeScript `Promise` code is sequentialised; the mock `setTimeout` delays
  have no observable effect and are dropped.  `Promise.all` is modelled by
  a function joining four `Except` results (a rejection of any member
  rejects the whole join; the leftmost rejection is taken, standing for the
  first rejection in time).
* Numbers used as confidences are modelled by `ℚ`; decimal literals such as
  `0.65` are exact rationals (floating-point rounding noise is far below
  every threshold compared against and is not modelled).
* Wall-clock derived strings (`new Date().toISOString()`, execution ids)
  are passed in as explicit parameters `now` / `executionId`.
  The millisecond `executionTime` fields are dropped: no claim concerns them.
* An agent `execute(input)` receives `input: Option ·`; `none` stands for a
  `null` or non-object argument, which is exactly what `BaseAgent.validateInput`
  rejects (it performs no other check).
* External collaborator behaviour that the source code mocks as a constant
  (the memory-bank acknowledgement, the per-source fetch results) is exposed
  as a parameter of an `...With` variant of the agent; the plain agent
  definition instantiates the parameter with the source's constant mock, so
  the plain definitions are literal translations of the source.
-/

namespace Acpa

/-- Priority of a recommendation, from synthesis.ts (`"high" | "medium" | "low"`). -/
inductive Priority where
  | high
  | medium
  | low
  deriving DecidableEq

/-- Numeric rank of a priority: `high` before `medium` before `low`. -/
def Priority.rank : Priority → Nat
  | .high => 0
  | .medium => 1
  | .low => 2

/-- The four source kinds of base.ts (`"news" | "scientific" | "policy" | "api"`). -/
inductive SourceType where
  | news
  | scientific
  | policy
  | api
  deriving DecidableEq

/-- One opaque record inside a `DataSource.data` array, one constructor per
record shape appearing in the four fetch mocks of base.ts. -/
inductive SourceItem where
  | newsItem (title source date : String) (relevance : ℚ)
  | paper (title : String) (authors : List String) (year : Nat) (relevance : ℚ)
  | policyDoc (name docType status : String) (relevance : ℚ)
  | metric (metric value trend source : String)
  deriving DecidableEq

/-- `DataSource` of base.ts. -/
structure DataSource where
  type : SourceType
  count : Nat
  topics : List String
  data : List SourceItem
  deriving DecidableEq

/-- Input to the ingestion agent (`IngestionInput` of base.ts). -/
structure IngestionInput where
  region : String
  policyType : String
  focusAreas : Option (List String)
  deriving DecidableEq

/-- Payload of a successful ingestion run (`IngestionOutput.data` of base.ts). -/
structure IngestionData where
  sources : List DataSource
  region : String
  timestamp : String
  totalDataPoints : Nat
  deriving DecidableEq

/-- `AnalysisFindings` of the policy-analysis agent (part_001). -/
structure AnalysisFindings where
  emissionsReductionPotential : String
  implementationCost : String
  timelineYears : Int
  riskFactors : List String
  opportunityFactors : List String
  deriving DecidableEq

/-- Input to the analysis agent (`AnalysisInput` of part_001; the opaque,
never-read `ingestionData` payload is not carried). -/
structure AnalysisInput where
  region : String
  policyType : String
  focusAreas : Option (List String)
  deriving DecidableEq

/-- Payload of a successful analysis run (`AnalysisOutput.data` of part_001). -/
structure AnalysisData where
  analysisType : String
  region : String
  findings : AnalysisFindings
  confidence : ℚ
  iterationCount : Nat
  deriving DecidableEq

/-- `PolicyRecommendation` of synthesis.ts. -/
structure PolicyRecommendation where
  priority : Priority
  action : String
  expectedImpact : String
  timeline : String
  implementationSteps : List String
  deriving DecidableEq

/-- Input to the synthesis agent (`SynthesisInput` of synthesis.ts; the opaque,
never-read `analysisData` payload and the merely-logged `userId` are not carried). -/
structure SynthesisInput where
  region : String
  policyType : String
  deriving DecidableEq

/-- Payload of a successful synthesis run (`SynthesisOutput.data` of synthesis.ts). -/
structure SynthesisData where
  recommendations : List PolicyRecommendation
  executiveSummary : String
  reportGeneratedAt : String
  memoryUpdated : Bool
  deriving DecidableEq

/-- A source entry of the supervisor's ingestion mock (agents.test.ts,
`callIngestionAgent`): unlike `DataSource` it has no `data` array. -/
structure SupSource where
  type : SourceType
  count : Nat
  topics : List String
  deriving DecidableEq

/-- Payload of the supervisor's ingestion mock: unlike `IngestionData` it has
no `totalDataPoints` field. -/
structure SupIngestionData where
  sources : List SupSource
  region : String
  timestamp : String
  deriving DecidableEq

/-- Findings of the supervisor's analysis mock: unlike `AnalysisFindings` it
has no `opportunityFactors` field. -/
structure SupFindings where
  emissionsReductionPotential : String
  implementationCost : String
  timelineYears : Int
  riskFactors : List String
  deriving DecidableEq

/-- Payload of the supervisor's analysis mock: unlike `AnalysisData` it has
no `iterationCount` field. -/
structure SupAnalysisData where
  analysisType : String
  region : String
  findings : SupFindings
  confidence : ℚ
  deriving DecidableEq

/-- A recommendation of the supervisor's synthesis mock: unlike
`PolicyRecommendation` it has no `implementationSteps`. -/
structure SupRecommendation where
  priority : Priority
  action : String
  expectedImpact : String
  timeline : String
  deriving DecidableEq

/-- Payload of the supervisor's synthesis mock: unlike `SynthesisData` it has
no `memoryUpdated` field. -/
structure SupSynthesisData where
  recommendations : List SupRecommendation
  executiveSummary : String
  reportGeneratedAt : String
  deriving DecidableEq

/-- The `data?: unknown` payload of an `AgentOutput`: one constructor per
distinct object shape produced in the source.  The three agents produce the
first three shapes; the supervisor's internal mocks produce the last three. -/
inductive StageData where
  | ingestion (d : IngestionData)
  | analysis (d : AnalysisData)
  | synthesis (d : SynthesisData)
  | supIngestion (d : SupIngestionData)
  | supAnalysis (d : SupAnalysisData)
  | supSynthesis (d : SupSynthesisData)
  deriving DecidableEq

/-- `AgentOutput` of base.ts (without the dropped `executionTime`). -/
structure AgentOutput where
  success : Bool
  data : Option StageData
  error : Option String
  deriving DecidableEq

/-- News fetch mock of base.ts (`fetchNewsData`); the item dates are
`new Date().toISOString()`, passed here as `now`. -/
def fetchNewsData (input : IngestionInput) (now : String) : DataSource :=
  { type := .news
    count := 15
    topics := ["renewable energy initiatives", "emissions reduction targets",
               "climate policy updates"]
    data := [
      .newsItem "New renewable energy policy announced" "Climate News Daily" now 0.95,
      .newsItem "Carbon pricing mechanism gains support" "Environmental Policy Review" now 0.88,
      .newsItem ("Regional climate action plan for " ++ input.region) "Government News" now 0.92] }

/-- Scientific fetch mock of base.ts (`fetchScientificData`). -/
def fetchScientificData (_input : IngestionInput) : DataSource :=
  { type := .scientific
    count := 8
    topics := ["climate models", "carbon budgets", "policy effectiveness"]
    data := [
      .paper "IPCC Climate Models and Regional Projections" ["IPCC"] 2023 0.96,
      .paper "Carbon Budget Analysis for Developed Nations" ["Climate Analytics"] 2023 0.89,
      .paper "Effectiveness of Carbon Pricing Policies" ["Energy Economics Institute"] 2023 0.85] }

/-- Policy-document fetch mock of base.ts (`fetchPolicyData`). -/
def fetchPolicyData (input : IngestionInput) : DataSource :=
  { type := .policy
    count := 6
    topics := ["national policies", "international agreements", "regional mandates"]
    data := [
      .policyDoc "Paris Agreement Commitments" "international" "active" 0.98,
      .policyDoc (input.region ++ " Climate Action Plan") "regional" "active" 0.97,
      .policyDoc "Net Zero 2050 Target" "national" "proposed" 0.91] }

/-- External-API fetch mock of base.ts (`fetchAPIData`). -/
def fetchAPIData (_input : IngestionInput) : DataSource :=
  { type := .api
    count := 12
    topics := ["emissions data", "energy statistics", "economic indicators"]
    data := [
      .metric "Current CO2 Emissions" "450 Mt CO2e" "decreasing" "Global Carbon Project",
      .metric "Renewable Energy Share" "35%" "increasing" "International Energy Agency",
      .metric "Energy Efficiency Index" "72/100" "stable" "Energy Efficiency Institute"] }

/-- `Promise.all` over the four fetches: all must succeed; any rejection
rejects the join (the leftmost rejection stands for the first in time). -/
def promiseAll4 (p1 p2 p3 p4 : Except String DataSource) :
    Except String (DataSource × DataSource × DataSource × DataSource) :=
  match p1 with
  | .error e => .error e
  | .ok a =>
    match p2 with
    | .error e => .error e
    | .ok b =>
      match p3 with
      | .error e => .error e
      | .ok c =>
        match p4 with
        | .error e => .error e
        | .ok d => .ok (a, b, c, d)

/-- Body of `DataIngestionAgent.execute` after input validation, with the four
fetch results as parameters (the try/catch around `Promise.all` becomes the
`Except` match; a rejection message becomes the returned `error`). -/
def ingestBundle (inp : IngestionInput) (now : String)
    (p1 p2 p3 p4 : Except String DataSource) : AgentOutput :=
  match promiseAll4 p1 p2 p3 p4 with
  | .error e => { success := false, data := none, error := some e }
  | .ok (newsData, scientificData, policyData, apiData) =>
    let sources := [newsData, scientificData, policyData, apiData]
    let totalDataPoints := sources.foldl (fun sum s => sum + s.count) 0
    { success := true
      data := some (.ingestion
        { sources := sources
          region := inp.region
          timestamp := now
          totalDataPoints := totalDataPoints })
      error := none }

/-- `DataIngestionAgent.execute` of base.ts: validate the input, then join the
four concrete fetch mocks, which always succeed. -/
def executeIngestion (input : Option IngestionInput) (now : String) : AgentOutput :=
  match input with
  | none => { success := false, data := none, error := some "Invalid ingestion input" }
  | some inp =>
    ingestBundle inp now
      (.ok (fetchNewsData inp now)) (.ok (fetchScientificData inp))
      (.ok (fetchPolicyData inp)) (.ok (fetchAPIData inp))

/-- `PolicyAnalysisAgent.maxIterations` (part_001). -/
def maxIterations : Nat := 3

/-- `PolicyAnalysisAgent.confidenceThreshold` (part_001). -/
def confidenceThreshold : ℚ := 0.80

/-- Decimal rendering of a number given in tenths, mirroring the TypeScript
template rendering of `2.5 + iteration * 0.2` and `3.5 + iteration * 0.2`
(which are exact multiples of one tenth). -/
def tenthsStr (n : Nat) : String := toString (n / 10) ++ "." ++ toString (n % 10)

/-- `PolicyAnalysisAgent.performAnalysis` (part_001): the analytic-capability
mock.  Its result depends only on the iteration index; the `input` parameter
is kept because the source signature has it, though the body never reads it.
The `undefined`-plus-`filter(Boolean)` idiom on the factor arrays becomes a
conditional append. -/
def performAnalysis (_input : AnalysisInput) (iteration : Nat) : AnalysisFindings × ℚ :=
  let baseConfidence : ℚ := 0.65 + (iteration : ℚ) * 0.12
  let confidence := min baseConfidence 0.95
  let findings : AnalysisFindings :=
    { emissionsReductionPotential :=
        toString (45 + iteration * 2) ++ "-" ++ toString (55 + iteration * 2) ++ "%"
      implementationCost :=
        "$" ++ tenthsStr (25 + iteration * 2) ++ "-" ++ tenthsStr (35 + iteration * 2) ++ "B"
      timelineYears := 10 - (iteration : Int)
      riskFactors :=
        ["political resistance", "economic transition", "technology adoption"] ++
          (if 0 < iteration then ["supply chain constraints"] else [])
      opportunityFactors :=
        ["job creation in renewable sector", "improved air quality", "energy independence"] ++
          (if 1 < iteration then ["economic growth potential"] else []) }
  (findings, confidence)

/-- The mutable loop state of `PolicyAnalysisAgent.execute`: the variables
`findings`, `confidence` and `iterationCount` declared before the loop. -/
structure AnalysisLoopState where
  findings : Option AnalysisFindings
  confidence : ℚ
  iterationCount : Nat
  deriving DecidableEq

/-- The `for (let i = 0; i < maxIterations; i++)` loop of
`PolicyAnalysisAgent.execute`: `i` is the current index, the second argument
the remaining number of indices.  Each pass overwrites the state with the pair
returned by `perform i` and sets `iterationCount` to `i + 1`; the loop breaks
as soon as the confidence reaches `threshold` (the inter-iteration refinement
sleep has no observable effect and is dropped). -/
def analysisLoopAux (perform : Nat → AnalysisFindings × ℚ) (threshold : ℚ) :
    Nat → Nat → AnalysisLoopState → AnalysisLoopState
  | _, 0, st => st
  | i, remaining + 1, _st =>
    let result := perform i
    let st := AnalysisLoopState.mk (some result.1) result.2 (i + 1)
    if threshold ≤ result.2 then st
    else analysisLoopAux perform threshold (i + 1) remaining st

/-- The analysis loop started from index 0 with the initial state
`findings = null`, `confidence = 0`, `iterationCount = 0`. -/
def analysisLoop (perform : Nat → AnalysisFindings × ℚ) (threshold : ℚ)
    (maxIter : Nat) : AnalysisLoopState :=
  analysisLoopAux perform threshold 0 maxIter (AnalysisLoopState.mk none 0 0)

/-- The code of `PolicyAnalysisAgent.execute` (part_001) after the loop: fail
with `Analysis failed to produce findings` when the loop never stored findings
(the `throw` lands in the surrounding catch, which returns the message as the
output's `error`); otherwise package the final loop state. -/
def finishAnalysis (inp : AnalysisInput) (st : AnalysisLoopState) : AgentOutput :=
  match st.findings with
  | none =>
    { success := false, data := none, error := some "Analysis failed to produce findings" }
  | some f =>
    { success := true
      data := some (.analysis
        { analysisType := inp.policyType
          region := inp.region
          findings := f
          confidence := st.confidence
          iterationCount := st.iterationCount })
      error := none }

/-- `PolicyAnalysisAgent.execute` (part_001): validate the input, run the
iterative loop, then package its final state. -/
def executeAnalysis (input : Option AnalysisInput) : AgentOutput :=
  match input with
  | none => { success := false, data := none, error := some "Invalid analysis input" }
  | some inp =>
    finishAnalysis inp (analysisLoop (performAnalysis inp) confidenceThreshold maxIterations)

/-- `SynthesisAgent.retrieveMemoryContext` (synthesis.ts): the memory-bank
retrieval mock, a constant context string (the template literal's internal
line breaks and indentation are collapsed to single spaces; nothing reads
this string downstream). -/
def retrieveMemoryContext (_input : SynthesisInput) : String :=
  "Previous analysis for similar regions shows that renewable energy incentives " ++
  "are most effective when combined with carbon pricing mechanisms. Economic " ++
  "transition support is critical for worker retraining programs. Public " ++
  "transportation infrastructure has shown 8-12% emissions reduction potential " ++
  "in comparable regions."

/-- `SynthesisAgent.generateRecommendations` (synthesis.ts): the Gemini mock,
a constant list of five recommendations (three high, two medium); the memory
context is accepted but not read.  The source performs no sorting: the list is
returned exactly in this order. -/
def generateRecommendations (_input : SynthesisInput) (_memoryContext : String) :
    List PolicyRecommendation :=
  [{ priority := .high
     action := "Implement renewable energy incentives and subsidies"
     expectedImpact := "30% emissions reduction"
     timeline := "2-3 years"
     implementationSteps :=
       ["Design incentive structure (feed-in tariffs or tax credits)",
        "Establish regulatory framework",
        "Launch public awareness campaign",
        "Monitor and adjust incentive levels"] },
   { priority := .high
     action := "Establish carbon pricing mechanism (carbon tax or ETS)"
     expectedImpact := "15-20% emissions reduction"
     timeline := "1-2 years"
     implementationSteps :=
       ["Conduct economic impact assessment",
        "Design pricing structure",
        "Implement phased rollout",
        "Create revenue recycling program"] },
   { priority := .high
     action := "Invest in public transportation infrastructure"
     expectedImpact := "10% emissions reduction"
     timeline := "3-5 years"
     implementationSteps :=
       ["Assess transportation needs",
        "Develop infrastructure plan",
        "Secure funding sources",
        "Phase implementation by region"] },
   { priority := .medium
     action := "Support industrial energy efficiency programs"
     expectedImpact := "8-12% emissions reduction"
     timeline := "2-4 years"
     implementationSteps :=
       ["Identify energy-intensive industries",
        "Provide technical assistance",
        "Offer financing for upgrades",
        "Track and report progress"] },
   { priority := .medium
     action := "Develop worker transition and retraining programs"
     expectedImpact := "Social equity improvement"
     timeline := "Ongoing"
     implementationSteps :=
       ["Identify affected workers",
        "Design training programs",
        "Partner with educational institutions",
        "Provide income support during transition"] }]

/-- `SynthesisAgent.generateExecutiveSummary` (synthesis.ts): the summary mock,
a long report template mentioning the region; the recommendations are accepted
but not read.  The source trims the template; the trimmed text is given. -/
def generateExecutiveSummary (input : SynthesisInput)
    (_recommendations : List PolicyRecommendation) : String :=
  "EXECUTIVE SUMMARY: Climate Policy Recommendations for " ++ input.region ++
  "\n\nBased on comprehensive analysis of global climate policy data, scientific research,\n" ++
  "and local socio-economic context, we recommend a phased, multi-sector approach to\n" ++
  "achieve 45-55% emissions reduction over 10 years.\n\n" ++
  "KEY RECOMMENDATIONS:\n" ++
  "1. Renewable Energy Transition: Implement aggressive incentives to reach 50% renewable\n" ++
  "   energy share by 2035, creating 50,000+ jobs in the green energy sector.\n\n" ++
  "2. Carbon Pricing: Establish a carbon tax or emissions trading system starting at\n" ++
  "   $30-50/ton CO2e, increasing annually to drive behavioral change.\n\n" ++
  "3. Transportation Transformation: Invest $3-4B in public transit infrastructure,\n" ++
  "   targeting 30% mode shift from private vehicles.\n\n" ++
  "4. Industrial Efficiency: Support manufacturing sector in achieving 25% energy\n" ++
  "   efficiency improvements through technology upgrades and best practices.\n\n" ++
  "5. Just Transition: Allocate 15% of climate investment to worker retraining and\n" ++
  "   community support programs.\n\n" ++
  "EXPECTED OUTCOMES:\n" ++
  "- 45-55% reduction in greenhouse gas emissions\n" ++
  "- 100,000+ new jobs in clean energy and related sectors\n" ++
  "- $2.5-3.5B total investment required\n" ++
  "- 10-year implementation timeline\n" ++
  "- Net economic benefit of $8-12B through avoided climate damages\n\n" ++
  "IMPLEMENTATION RISKS:\n" ++
  "- Political resistance from fossil fuel interests\n" ++
  "- Economic transition challenges for affected workers\n" ++
  "- Technology adoption barriers\n" ++
  "- Supply chain constraints for renewable equipment\n\n" ++
  "CRITICAL SUCCESS FACTORS:\n" ++
  "- Strong political commitment and bipartisan support\n" ++
  "- Public engagement and education campaigns\n" ++
  "- International cooperation and technology transfer\n" ++
  "- Adequate financing mechanisms\n" ++
  "- Regular monitoring and adaptive management\n\n" ++
  "This analysis is based on best practices from leading climate policy jurisdictions\n" ++
  "and peer-reviewed scientific research. Regular review and adjustment is recommended\n" ++
  "as new data becomes available."

/-- Body of `SynthesisAgent.execute` (synthesis.ts) after input validation,
with the memory-bank write acknowledgement as a parameter `memoryAck`: the
source `storeInMemoryBank` mock always acknowledges with `true`; an
unacknowledged (failed) write is `memoryAck = false`, which the source folds
into `memoryUpdated` without failing the stage. -/
def executeSynthesisWith (memoryAck : Bool) (input : Option SynthesisInput)
    (now : String) : AgentOutput :=
  match input with
  | none => { success := false, data := none, error := some "Invalid synthesis input" }
  | some inp =>
    let memoryContext := retrieveMemoryContext inp
    let recommendations := generateRecommendations inp memoryContext
    let executiveSummary := generateExecutiveSummary inp recommendations
    let memoryUpdated := memoryAck
    { success := true
      data := some (.synthesis
        { recommendations := recommendations
          executiveSummary := executiveSummary
          reportGeneratedAt := now
          memoryUpdated := memoryUpdated })
      error := none }

/-- `SynthesisAgent.execute` (synthesis.ts) with the source's constant
memory-bank mock, which always acknowledges the write. -/
def executeSynthesis (input : Option SynthesisInput) (now : String) : AgentOutput :=
  executeSynthesisWith true input now

/-- `SupervisorInput` of the supervisor agent (agents.test.ts). -/
structure SupervisorInput where
  region : String
  policyType : String
  userId : Int
  focusAreas : Option (List String)
  deriving DecidableEq

/-- Payload of a successful supervisor run (`SupervisorOutput.data`). -/
structure SupervisorData where
  executionId : String
  ingestion : AgentOutput
  analysis : AgentOutput
  synthesis : AgentOutput
  deriving DecidableEq

/-- `SupervisorOutput` of the supervisor agent (without the dropped
`executionTime`). -/
structure SupervisorOutput where
  success : Bool
  data : Option SupervisorData
  error : Option String
  deriving DecidableEq

/-- `SupervisorAgent.callIngestionAgent` (agents.test.ts): the supervisor's
ingestion-stage mock.  It does not invoke `DataIngestionAgent`: it returns a
two-source payload with no per-source `data` arrays and no `totalDataPoints`. -/
def callIngestionAgent (input : SupervisorInput) (now : String) : AgentOutput :=
  { success := true
    data := some (.supIngestion
      { sources := [
          { type := .news
            count := 15
            topics := ["renewable energy", "emissions reduction", "climate policy"] },
          { type := .scientific
            count := 8
            topics := ["climate models", "carbon budgets", "policy effectiveness"] }]
        region := input.region
        timestamp := now })
    error := none }

/-- `SupervisorAgent.callAnalysisAgent` (agents.test.ts): the supervisor's
analysis-stage mock.  It does not invoke `PolicyAnalysisAgent` (the ingestion
data it receives is ignored): it returns findings without `opportunityFactors`,
a fixed confidence of 0.82, and no `iterationCount`. -/
def callAnalysisAgent (input : SupervisorInput) : AgentOutput :=
  { success := true
    data := some (.supAnalysis
      { analysisType := input.policyType
        region := input.region
        findings :=
          { emissionsReductionPotential := "45-55%"
            implementationCost := "$2.5-3.5B"
            timelineYears := 10
            riskFactors := ["political resistance", "economic transition", "technology adoption"] }
        confidence := 0.82 })
    error := none }

/-- `SupervisorAgent.callSynthesisAgent` (agents.test.ts): the supervisor's
synthesis-stage mock.  It does not invoke `SynthesisAgent` (the analysis data
it receives is ignored): it returns three recommendations without
`implementationSteps` and no `memoryUpdated`. -/
def callSynthesisAgent (input : SupervisorInput) (now : String) : AgentOutput :=
  { success := true
    data := some (.supSynthesis
      { recommendations := [
          { priority := .high
            action := "Implement renewable energy incentives"
            expectedImpact := "30% emissions reduction"
            timeline := "2-3 years" },
          { priority := .high
            action := "Establish carbon pricing mechanism"
            expectedImpact := "15-20% emissions reduction"
            timeline := "1-2 years" },
          { priority := .medium
            action := "Invest in public transportation infrastructure"
            expectedImpact := "10% emissions reduction"
            timeline := "3-5 years" }]
        executiveSummary :=
          "Based on comprehensive analysis of climate policy data and local context for " ++
          input.region ++
          ", we recommend a phased approach focusing on renewable energy adoption and " ++
          "carbon pricing mechanisms. These measures can achieve 45-55% emissions " ++
          "reduction over 10 years."
        reportGeneratedAt := now })
    error := none }

/-- Rendering of an optional error in a thrown message: TypeScript
interpolates `undefined` when the field is absent. -/
def errText : Option String → String
  | some e => e
  | none => "undefined"

/-- The stage-sequencing body of `SupervisorAgent.execute` (agents.test.ts):
each stage output is checked in order; the first non-success throws
`<Stage> failed: <error>`, which the surrounding catch returns as the
output's `error` with no data, so a failed stage leaves no later stage
output (the later stages are never entered).  When all three stages succeed
the payload carries the execution id and all three outputs. -/
def runStages (executionId : String)
    (ingestionOutput analysisOutput synthesisOutput : AgentOutput) : SupervisorOutput :=
  if ingestionOutput.success = false then
    { success := false, data := none
      error := some ("Ingestion failed: " ++ errText ingestionOutput.error) }
  else if analysisOutput.success = false then
    { success := false, data := none
      error := some ("Analysis failed: " ++ errText analysisOutput.error) }
  else if synthesisOutput.success = false then
    { success := false, data := none
      error := some ("Synthesis failed: " ++ errText synthesisOutput.error) }
  else
    { success := true
      data := some
        { executionId := executionId
          ingestion := ingestionOutput
          analysis := analysisOutput
          synthesis := synthesisOutput }
      error := none }

/-- `SupervisorAgent.execute` (agents.test.ts): validate the input, then run
the three internal stage mocks in sequence.  The execution id (built in the
source from the clock and a random suffix) is a parameter. -/
def executeSupervisor (input : Option SupervisorInput) (executionId : String)
    (now : String) : SupervisorOutput :=
  match input with
  | none => { success := false, data := none, error := some "Invalid supervisor input" }
  | some inp =>
    runStages executionId
      (callIngestionAgent inp now) (callAnalysisAgent inp) (callSynthesisAgent inp now)

/-- `ACPARequest` of orchestrator.ts. -/
structure ACPARequest where
  region : String
  policyType : String
  userId : Int
  focusAreas : Option (List String)
  deriving DecidableEq

/-- The three per-stage outputs of `ACPAResponse.result` (orchestrator.ts). -/
structure StageResults where
  ingestion : AgentOutput
  analysis : AgentOutput
  synthesis : AgentOutput
  deriving DecidableEq

/-- `ACPAResponse` of orchestrator.ts (without the dropped
`totalExecutionTime`). -/
structure ACPAResponse where
  success : Bool
  executionId : Option String
  result : Option StageResults
  error : Option String
  deriving DecidableEq

/-- The `SupervisorInput` that `AgentOrchestrator.runACPA` builds from a
request. -/
def toSupervisorInput (request : ACPARequest) : SupervisorInput :=
  { region := request.region
    policyType := request.policyType
    userId := request.userId
    focusAreas := request.focusAreas }

/-- `AgentOrchestrator.runACPA` (orchestrator.ts): delegate to
`SupervisorAgent.execute` and repackage its payload; a non-success result is
returned with its error only. -/
def runACPA (request : ACPARequest) (executionId : String) (now : String) : ACPAResponse :=
  let result := executeSupervisor (some (toSupervisorInput request)) executionId now
  if result.success = false then
    { success := false, executionId := none, result := none, error := result.error }
  else
    match result.data with
    | some d =>
      { success := true
        executionId := some d.executionId
        result := some { ingestion := d.ingestion, analysis := d.analysis, synthesis := d.synthesis }
        error := none }
    | none =>
      { success := true, executionId := none, result := none, error := none }

/-- Test for the ingestion-agent payload shape (the shape carrying
`totalDataPoints`). -/
def isAgentIngestionData : Option StageData → Bool
  | some (.ingestion _) => true
  | _ => false

/-- Test for the analysis-agent payload shape (the shape carrying
`iterationCount`). -/
def isAgentAnalysisData : Option StageData → Bool
  | some (.analysis _) => true
  | _ => false

/-- Test for the synthesis-agent payload shape (the shape carrying
`memoryUpdated`). -/
def isAgentSynthesisData : Option StageData → Bool
  | some (.synthesis _) => true
  | _ => false

/-- The `totalDataPoints` field of a payload, when the payload has one. -/
def totalDataPointsOf : Option StageData → Option Nat
  | some (.ingestion d) => some d.totalDataPoints
  | _ => none

/-- The `iterationCount` field of a payload, when the payload has one. -/
def iterationCountOf : Option StageData → Option Nat
  | some (.analysis d) => some d.iterationCount
  | _ => none

/-- The number of recommendations of a synthesis payload (agent or
supervisor-mock shape). -/
def recommendationCountOf : Option StageData → Option Nat
  | some (.synthesis d) => some d.recommendations.length
  | some (.supSynthesis d) => some d.recommendations.length
  | _ => none

/-- The `confidence` field of a supervisor-mock analysis payload. -/
def supConfidenceOf : Option StageData → Option ℚ
  | some (.supAnalysis d) => some d.confidence
  | _ => none

/-- The number of sources of a supervisor-mock ingestion payload. -/
def supSourceCountOf : Option StageData → Option Nat
  | some (.supIngestion d) => some d.sources.length
  | _ => none

/-- The sum of the per-source item counts of a supervisor-mock ingestion
payload (the payload itself carries no total). -/
def supItemSumOf : Option StageData → Option Nat
  | some (.supIngestion d) => some ((d.sources.map SupSource.count).sum)
  | _ => none

/-- The ingestion-agent payload of an output, when it has that shape. -/
def ingestionDataOf : Option StageData → Option IngestionData
  | some (.ingestion d) => some d
  | _ => none

/-- The analysis stage data inside an orchestrator response. -/
def responseAnalysisData (r : ACPAResponse) : Option StageData :=
  match r.result with
  | some st => st.analysis.data
  | none => none

/-- The ingestion stage data inside an orchestrator response. -/
def responseIngestionData (r : ACPAResponse) : Option StageData :=
  match r.result with
  | some st => st.ingestion.data
  | none => none

/-- The synthesis stage data inside an orchestrator response. -/
def responseSynthesisData (r : ACPAResponse) : Option StageData :=
  match r.result with
  | some st => st.synthesis.data
  | none => none

/-- Priority sortedness: every `high` before every `medium` before every
`low`, checked on adjacent pairs. -/
def prioritySorted : List PolicyRecommendation → Bool
  | [] => true
  | [_] => true
  | a :: b :: rest =>
    decide (a.priority.rank ≤ b.priority.rank) && prioritySorted (b :: rest)

/-- Erase the timestamp field of a news item (other item shapes carry no
timestamp). -/
def scrubItem : SourceItem → SourceItem
  | .newsItem title source _date relevance => .newsItem title source "" relevance
  | item => item

/-- Erase the timestamps inside one source. -/
def scrubSource (s : DataSource) : DataSource :=
  { s with data := s.data.map scrubItem }

/-- Erase every timestamp of an ingestion payload: what is left is the
aggregate structure modulo timestamps. -/
def scrubIngestion (d : IngestionData) : IngestionData :=
  { d with timestamp := "", sources := d.sources.map scrubSource }

/-- The request of the specification scenario for claim C9. -/
def californiaRequest : ACPARequest :=
  { region := "California", policyType := "Renewable Energy", userId := 1, focusAreas := none }

/-- The blank-region request of the specification scenario for claim C1. -/
def blankRegionRequest : ACPARequest :=
  { region := "", policyType := "X", userId := 1, focusAreas := none }

/-- A concrete analysis input used to instantiate universally quantified
theorems. -/
def sampleAnalysisInput : AnalysisInput :=
  { region := "California", policyType := "Renewable Energy", focusAreas := none }

/-- A concrete ingestion input used to instantiate universally quantified
theorems. -/
def sampleIngestionInput : IngestionInput :=
  { region := "California", policyType := "Renewable Energy", focusAreas := none }

/-- A concrete synthesis input used to instantiate universally quantified
theorems. -/
def sampleSynthesisInput : SynthesisInput :=
  { region := "California", policyType := "Renewable Energy" }

/-- Evaluation of the analysis loop over the source's analytic mock: the
confidences of the three passes are 0.65, 0.77 and 0.89, so the loop runs all
three iterations and stops at the third with confidence 0.89 and the third
pass's findings. -/
theorem analysisLoop_eval (inp : AnalysisInput) :
    analysisLoop (performAnalysis inp) confidenceThreshold maxIterations =
      AnalysisLoopState.mk (some (performAnalysis inp 2).1) 0.89 3 := by
  norm_num [analysisLoop, analysisLoopAux, performAnalysis, confidenceThreshold, maxIterations]

/-- Evaluation of `PolicyAnalysisAgent.execute` on any object-shaped input:
success with the third pass's findings, confidence 0.89 and iteration count 3. -/
theorem executeAnalysis_eval (inp : AnalysisInput) :
    executeAnalysis (some inp) =
      { success := true
        data := some (.analysis
          { analysisType := inp.policyType
            region := inp.region
            findings := (performAnalysis inp 2).1
            confidence := 0.89
            iterationCount := 3 })
        error := none } := by
  have h : executeAnalysis (some inp) =
      finishAnalysis inp (analysisLoop (performAnalysis inp) confidenceThreshold maxIterations) :=
    rfl
  rw [h, analysisLoop_eval]
  rfl

/-- Claim C1, counterexample: the request with empty region and category "X"
is NOT rejected before the stages: the run succeeds and every one of the three
stage outputs is present in the returned result, refuting the claim that a
validation error prevents any stage output for such a request. -/
theorem claimC1_counterexample :
    (runACPA blankRegionRequest "exec-1" "t0").success = true ∧
    (responseIngestionData (runACPA blankRegionRequest "exec-1" "t0")).isSome = true ∧
    (responseAnalysisData (runACPA blankRegionRequest "exec-1" "t0")).isSome = true ∧
    (responseSynthesisData (runACPA blankRegionRequest "exec-1" "t0")).isSome = true :=
  ⟨rfl, rfl, rfl, rfl⟩

/-- Claim C1, amended: input validation rejects only a null or non-object
input (with a validation error and no stage output); a request whose region or
category is empty (or blank) is an object, passes `validateInput`, and the run
proceeds through all three stages, each producing output, and succeeds.  (The
only emptiness check in the repository is `z.string().min(1)` in the external
tRPC router, outside the orchestration core and not trim-aware.) -/
theorem claimC1_amended (region policyType : String) (userId : Int)
    (focusAreas : Option (List String)) (executionId now : String) :
    executeSupervisor none executionId now =
      { success := false, data := none, error := some "Invalid supervisor input" } ∧
    (runACPA ⟨region, policyType, userId, focusAreas⟩ executionId now).success = true ∧
    (responseIngestionData
      (runACPA ⟨region, policyType, userId, focusAreas⟩ executionId now)).isSome = true ∧
    (responseAnalysisData
      (runACPA ⟨region, policyType, userId, focusAreas⟩ executionId now)).isSome = true ∧
    (responseSynthesisData
      (runACPA ⟨region, policyType, userId, focusAreas⟩ executionId now)).isSome = true :=
  ⟨rfl, rfl, rfl, rfl, rfl⟩

/-- Claim C1, witness: the amended statement at the blank-region request of the
specification scenario. -/
theorem claimC1_witness :
    executeSupervisor none "exec-1" "t0" =
      { success := false, data := none, error := some "Invalid supervisor input" } ∧
    (runACPA ⟨"", "X", 1, none⟩ "exec-1" "t0").success = true ∧
    (responseIngestionData (runACPA ⟨"", "X", 1, none⟩ "exec-1" "t0")).isSome = true ∧
    (responseAnalysisData (runACPA ⟨"", "X", 1, none⟩ "exec-1" "t0")).isSome = true ∧
    (responseSynthesisData (runACPA ⟨"", "X", 1, none⟩ "exec-1" "t0")).isSome = true :=
  claimC1_amended "" "X" 1 none "exec-1" "t0"

/-- Claim C2: `runACPA` returns exactly the three internal supervisor mock
stage outputs (`callIngestionAgent`, `callAnalysisAgent`,
`callSynthesisAgent`); none of the three stage payloads has the shape the
real agents produce, the mock ingestion and analysis payloads lack the
`totalDataPoints` and `iterationCount` fields the agents would populate
(41 and 3 on any valid input), and each mock stage output differs from the
output the corresponding agent computes. -/
theorem claimC2_runACPA_uses_supervisor_mocks (request : ACPARequest)
    (executionId now now2 : String) (i : IngestionInput) (a : AnalysisInput)
    (s : SynthesisInput) :
    ∃ st : StageResults,
      (runACPA request executionId now).result = some st ∧
      st.ingestion = callIngestionAgent (toSupervisorInput request) now ∧
      st.analysis = callAnalysisAgent (toSupervisorInput request) ∧
      st.synthesis = callSynthesisAgent (toSupervisorInput request) now ∧
      isAgentIngestionData st.ingestion.data = false ∧
      isAgentAnalysisData st.analysis.data = false ∧
      isAgentSynthesisData st.synthesis.data = false ∧
      totalDataPointsOf st.ingestion.data = none ∧
      iterationCountOf st.analysis.data = none ∧
      totalDataPointsOf (executeIngestion (some i) now2).data = some 41 ∧
      iterationCountOf (executeAnalysis (some a)).data = some 3 ∧
      st.ingestion ≠ executeIngestion (some i) now2 ∧
      st.analysis ≠ executeAnalysis (some a) ∧
      st.synthesis ≠ executeSynthesis (some s) now2 := by
  have hA := executeAnalysis_eval a
  refine ⟨_, rfl, rfl, rfl, rfl, rfl, rfl, rfl, rfl, rfl, rfl, ?_, ?_, ?_, ?_⟩
  · rw [hA]
    rfl
  · intro h
    exact Bool.noConfusion (congrArg (fun o => isAgentIngestionData o.data) h)
  · intro h
    rw [hA] at h
    exact Bool.noConfusion (congrArg (fun o => isAgentAnalysisData o.data) h)
  · intro h
    exact Bool.noConfusion (congrArg (fun o => isAgentSynthesisData o.data) h)

/-- Claim C2, witness: the statement at the California request and concrete
agent inputs. -/
theorem claimC2_witness :
    ∃ st : StageResults,
      (runACPA californiaRequest "exec-1" "t0").result = some st ∧
      st.ingestion = callIngestionAgent (toSupervisorInput californiaRequest) "t0" ∧
      st.analysis = callAnalysisAgent (toSupervisorInput californiaRequest) ∧
      st.synthesis = callSynthesisAgent (toSupervisorInput californiaRequest) "t0" ∧
      isAgentIngestionData st.ingestion.data = false ∧
      isAgentAnalysisData st.analysis.data = false ∧
      isAgentSynthesisData st.synthesis.data = false ∧
      totalDataPointsOf st.ingestion.data = none ∧
      iterationCountOf st.analysis.data = none ∧
      totalDataPointsOf (executeIngestion (some sampleIngestionInput) "t1").data = some 41 ∧
      iterationCountOf (executeAnalysis (some sampleAnalysisInput)).data = some 3 ∧
      st.ingestion ≠ executeIngestion (some sampleIngestionInput) "t1" ∧
      st.analysis ≠ executeAnalysis (some sampleAnalysisInput) ∧
      st.synthesis ≠ executeSynthesis (some sampleSynthesisInput) "t1" :=
  claimC2_runACPA_uses_supervisor_mocks californiaRequest "exec-1" "t0" "t1"
    sampleIngestionInput sampleAnalysisInput sampleSynthesisInput

/-- Claim C9, counterexample: on the California / Renewable Energy request the
run succeeds, but the record's analysis payload carries no `iterationCount`
field at all (so no `iterationsRun` between 1 and 3 exists in it), and the
record's ingestion payload carries no `totalDataPoints` field and only two
sources, not four. -/
theorem claimC9_counterexample :
    (runACPA californiaRequest "exec-1" "t0").success = true ∧
    iterationCountOf (responseAnalysisData (runACPA californiaRequest "exec-1" "t0")) = none ∧
    totalDataPointsOf (responseIngestionData (runACPA californiaRequest "exec-1" "t0")) = none ∧
    supSourceCountOf (responseIngestionData (runACPA californiaRequest "exec-1" "t0")) = some 2 :=
  ⟨rfl, rfl, rfl, rfl⟩

/-- Claim C9, amended: for the California / Renewable Energy request the run
succeeds with three recommendations (so at least one); the ingestion payload
has two sources whose item counts sum to 23 (positive) but no total-items
field; and the analysis payload reports confidence 0.82 and no iteration
count. -/
theorem claimC9_amended (executionId now : String) :
    (runACPA californiaRequest executionId now).success = true ∧
    recommendationCountOf
      (responseSynthesisData (runACPA californiaRequest executionId now)) = some 3 ∧
    supItemSumOf (responseIngestionData (runACPA californiaRequest executionId now)) = some 23 ∧
    supSourceCountOf (responseIngestionData (runACPA californiaRequest executionId now)) = some 2 ∧
    supConfidenceOf (responseAnalysisData (runACPA californiaRequest executionId now)) = some 0.82 ∧
    iterationCountOf (responseAnalysisData (runACPA californiaRequest executionId now)) = none :=
  ⟨rfl, rfl, rfl, rfl, rfl, rfl⟩

/-- Claim C9, witness: the amended statement at a concrete execution id and
timestamp. -/
theorem claimC9_witness :
    (runACPA californiaRequest "exec-9" "t9").success = true ∧
    recommendationCountOf
      (responseSynthesisData (runACPA californiaRequest "exec-9" "t9")) = some 3 ∧
    supItemSumOf (responseIngestionData (runACPA californiaRequest "exec-9" "t9")) = some 23 ∧
    supSourceCountOf (responseIngestionData (runACPA californiaRequest "exec-9" "t9")) = some 2 ∧
    supConfidenceOf (responseAnalysisData (runACPA californiaRequest "exec-9" "t9")) = some 0.82 ∧
    iterationCountOf (responseAnalysisData (runACPA californiaRequest "exec-9" "t9")) = none :=
  claimC9_amended "exec-9" "t9"

/-- Claim C3: on every valid analysis input the loop runs between 1 and
`maxIterations` (3) iterations; when it stopped early the returned confidence
reached `confidenceThreshold` (0.80); and when it ran all `maxIterations`
iterations the returned finding is the final iteration's finding, whatever its
confidence. -/
theorem claimC3_analysis_loop_bounds (inp : AnalysisInput) :
    ∃ d : AnalysisData,
      (executeAnalysis (some inp)).data = some (.analysis d) ∧
      1 ≤ d.iterationCount ∧ d.iterationCount ≤ maxIterations ∧
      (d.iterationCount < maxIterations → confidenceThreshold ≤ d.confidence) ∧
      (d.iterationCount = maxIterations →
        d.findings = (performAnalysis inp (maxIterations - 1)).1) := by
  refine ⟨_, by rw [executeAnalysis_eval], ?_, ?_, ?_, ?_⟩
  · show (1 : Nat) ≤ 3
    decide
  · show (3 : Nat) ≤ maxIterations
    decide
  · intro h
    have h3 : (3 : Nat) < maxIterations := h
    exact absurd h3 (by decide)
  · intro h
    rfl

/-- Claim C3, witness: the statement at a concrete valid analysis input. -/
theorem claimC3_witness :
    ∃ d : AnalysisData,
      (executeAnalysis (some sampleAnalysisInput)).data = some (.analysis d) ∧
      1 ≤ d.iterationCount ∧ d.iterationCount ≤ maxIterations ∧
      (d.iterationCount < maxIterations → confidenceThreshold ≤ d.confidence) ∧
      (d.iterationCount = maxIterations →
        d.findings = (performAnalysis sampleAnalysisInput (maxIterations - 1)).1) :=
  claimC3_analysis_loop_bounds sampleAnalysisInput

/-- Claim C4: when the memory-bank write is not acknowledged, synthesis still
succeeds with `memoryUpdated = false`, and a supervisor run whose first two
stages succeeded and whose synthesis stage is that output still succeeds. -/
theorem claimC4_memory_write_failure_nonfatal (inp : SynthesisInput)
    (now executionId : String) (ing ana : AgentOutput)
    (hing : ing.success = true) (hana : ana.success = true) :
    (executeSynthesisWith false (some inp) now).success = true ∧
    (executeSynthesisWith false (some inp) now).data =
      some (.synthesis
        { recommendations := generateRecommendations inp (retrieveMemoryContext inp)
          executiveSummary :=
            generateExecutiveSummary inp (generateRecommendations inp (retrieveMemoryContext inp))
          reportGeneratedAt := now
          memoryUpdated := false }) ∧
    (runStages executionId ing ana (executeSynthesisWith false (some inp) now)).success = true := by
  refine ⟨rfl, rfl, ?_⟩
  simp [runStages, hing, hana, executeSynthesisWith]

/-- Claim C4, witness: the statement at a concrete synthesis input and two
successful prior stage outputs. -/
theorem claimC4_witness :
    (executeSynthesisWith false (some sampleSynthesisInput) "t0").success = true ∧
    (executeSynthesisWith false (some sampleSynthesisInput) "t0").data =
      some (.synthesis
        { recommendations :=
            generateRecommendations sampleSynthesisInput
              (retrieveMemoryContext sampleSynthesisInput)
          executiveSummary :=
            generateExecutiveSummary sampleSynthesisInput
              (generateRecommendations sampleSynthesisInput
                (retrieveMemoryContext sampleSynthesisInput))
          reportGeneratedAt := "t0"
          memoryUpdated := false }) ∧
    (runStages "exec-4" ⟨true, none, none⟩ ⟨true, none, none⟩
      (executeSynthesisWith false (some sampleSynthesisInput) "t0")).success = true :=
  claimC4_memory_write_failure_nonfatal sampleSynthesisInput "t0" "exec-4"
    ⟨true, none, none⟩ ⟨true, none, none⟩ rfl rfl

/-- Claim C5: on every valid ingestion input the bundle's `totalDataPoints`
equals the sum of the per-source `count` fields, the sources appear in the
fixed kind order news, scientific, policy, api, and two runs differing only in
their timestamps agree after erasing timestamps. -/
theorem claimC5_ingestion_total_and_order (inp : IngestionInput) (now now2 : String) :
    (executeIngestion (some inp) now).success = true ∧
    ∃ d : IngestionData,
      (executeIngestion (some inp) now).data = some (.ingestion d) ∧
      d.totalDataPoints = (d.sources.map DataSource.count).sum ∧
      d.sources.map DataSource.type = [.news, .scientific, .policy, .api] ∧
      (ingestionDataOf (executeIngestion (some inp) now).data).map scrubIngestion =
        (ingestionDataOf (executeIngestion (some inp) now2).data).map scrubIngestion :=
  ⟨rfl, _, rfl, rfl, rfl, rfl⟩

/-- Claim C5, witness: the statement at a concrete ingestion input and two
distinct timestamps. -/
theorem claimC5_witness :
    (executeIngestion (some sampleIngestionInput) "t0").success = true ∧
    ∃ d : IngestionData,
      (executeIngestion (some sampleIngestionInput) "t0").data = some (.ingestion d) ∧
      d.totalDataPoints = (d.sources.map DataSource.count).sum ∧
      d.sources.map DataSource.type = [.news, .scientific, .policy, .api] ∧
      (ingestionDataOf (executeIngestion (some sampleIngestionInput) "t0").data).map
          scrubIngestion =
        (ingestionDataOf (executeIngestion (some sampleIngestionInput) "t1").data).map
          scrubIngestion :=
  claimC5_ingestion_total_and_order sampleIngestionInput "t0" "t1"

/-- Claim C6: whenever synthesis succeeds it returns a non-empty
recommendation list that is priority-sorted (every high before every medium
before every low; the source performs no re-sorting, the list is returned in
its construction order) together with a non-empty summary. -/
theorem claimC6_synthesis_sorted_nonempty (input : Option SynthesisInput)
    (now : String) (memoryAck : Bool)
    (h : (executeSynthesisWith memoryAck input now).success = true) :
    ∃ d : SynthesisData,
      (executeSynthesisWith memoryAck input now).data = some (.synthesis d) ∧
      d.recommendations ≠ [] ∧
      prioritySorted d.recommendations = true ∧
      d.executiveSummary ≠ "" := by
  match input with
  | none => exact Bool.noConfusion h
  | some inp =>
    refine ⟨_, rfl, ?_, rfl, ?_⟩
    · exact List.cons_ne_nil _ _
    · intro hempty
      have hlen := congrArg String.length hempty
      simp [generateExecutiveSummary, String.length_append] at hlen
      exact absurd hlen.2 (by decide)

/-- Claim C6, witness: the statement at a concrete valid synthesis input with
the acknowledged memory write of the source mock. -/
theorem claimC6_witness :
    ∃ d : SynthesisData,
      (executeSynthesisWith true (some sampleSynthesisInput) "t0").data = some (.synthesis d) ∧
      d.recommendations ≠ [] ∧
      prioritySorted d.recommendations = true ∧
      d.executiveSummary ≠ "" :=
  claimC6_synthesis_sorted_nonempty (some sampleSynthesisInput) "t0" true rfl

/-- Claim C7: when any one of the four source fetches fails, ingestion fails
with no partial bundle, and a supervisor run on that ingestion output fails
with an ingestion error and carries no stage data at all, so no analysis
result or recommendation appears. -/
theorem claimC7_source_failure_fails_run (inp : IngestionInput)
    (now executionId : String) (p1 p2 p3 p4 : Except String DataSource)
    (e : String) (ana syn : AgentOutput)
    (h : p1 = .error e ∨ p2 = .error e ∨ p3 = .error e ∨ p4 = .error e) :
    (ingestBundle inp now p1 p2 p3 p4).success = false ∧
    (ingestBundle inp now p1 p2 p3 p4).data = none ∧
    (runStages executionId (ingestBundle inp now p1 p2 p3 p4) ana syn).success = false ∧
    (runStages executionId (ingestBundle inp now p1 p2 p3 p4) ana syn).data = none ∧
    (runStages executionId (ingestBundle inp now p1 p2 p3 p4) ana syn).error =
      some ("Ingestion failed: " ++ errText (ingestBundle inp now p1 p2 p3 p4).error) := by
  have hq : ∃ q, promiseAll4 p1 p2 p3 p4 = Except.error q := by
    rcases h with h | h | h | h <;> subst h
    · exact ⟨e, rfl⟩
    · cases p1 with
      | error e1 => exact ⟨e1, rfl⟩
      | ok a => exact ⟨e, rfl⟩
    · cases p1 with
      | error e1 => exact ⟨e1, rfl⟩
      | ok a =>
        cases p2 with
        | error e2 => exact ⟨e2, rfl⟩
        | ok b => exact ⟨e, rfl⟩
    · cases p1 with
      | error e1 => exact ⟨e1, rfl⟩
      | ok a =>
        cases p2 with
        | error e2 => exact ⟨e2, rfl⟩
        | ok b =>
          cases p3 with
          | error e3 => exact ⟨e3, rfl⟩
          | ok c => exact ⟨e, rfl⟩
  obtain ⟨q, hq⟩ := hq
  have hb : ingestBundle inp now p1 p2 p3 p4 =
      { success := false, data := none, error := some q } := by
    simp [ingestBundle, hq]
  rw [hb]
  exact ⟨rfl, rfl, rfl, rfl, rfl⟩

/-- Claim C7, witness: the statement with the news fetch rejecting and the
other three fetches succeeding, composed with two arbitrary later-stage
outputs. -/
theorem claimC7_witness :
    (ingestBundle sampleIngestionInput "t0" (.error "news fetch failed")
      (.ok (fetchScientificData sampleIngestionInput))
      (.ok (fetchPolicyData sampleIngestionInput))
      (.ok (fetchAPIData sampleIngestionInput))).success = false ∧
    (ingestBundle sampleIngestionInput "t0" (.error "news fetch failed")
      (.ok (fetchScientificData sampleIngestionInput))
      (.ok (fetchPolicyData sampleIngestionInput))
      (.ok (fetchAPIData sampleIngestionInput))).data = none ∧
    (runStages "exec-7" (ingestBundle sampleIngestionInput "t0" (.error "news fetch failed")
      (.ok (fetchScientificData sampleIngestionInput))
      (.ok (fetchPolicyData sampleIngestionInput))
      (.ok (fetchAPIData sampleIngestionInput))) ⟨true, none, none⟩
      ⟨true, none, none⟩).success = false ∧
    (runStages "exec-7" (ingestBundle sampleIngestionInput "t0" (.error "news fetch failed")
      (.ok (fetchScientificData sampleIngestionInput))
      (.ok (fetchPolicyData sampleIngestionInput))
      (.ok (fetchAPIData sampleIngestionInput))) ⟨true, none, none⟩
      ⟨true, none, none⟩).data = none ∧
    (runStages "exec-7" (ingestBundle sampleIngestionInput "t0" (.error "news fetch failed")
      (.ok (fetchScientificData sampleIngestionInput))
      (.ok (fetchPolicyData sampleIngestionInput))
      (.ok (fetchAPIData sampleIngestionInput))) ⟨true, none, none⟩
      ⟨true, none, none⟩).error =
      some ("Ingestion failed: " ++
        errText (ingestBundle sampleIngestionInput "t0" (.error "news fetch failed")
          (.ok (fetchScientificData sampleIngestionInput))
          (.ok (fetchPolicyData sampleIngestionInput))
          (.ok (fetchAPIData sampleIngestionInput))).error) :=
  claimC7_source_failure_fails_run sampleIngestionInput "t0" "exec-7"
    (.error "news fetch failed") (.ok (fetchScientificData sampleIngestionInput))
    (.ok (fetchPolicyData sampleIngestionInput)) (.ok (fetchAPIData sampleIngestionInput))
    "news fetch failed" ⟨true, none, none⟩ ⟨true, none, none⟩ (Or.inl rfl)

/-- Claim C8: the supervisor stage sequencing succeeds exactly when all three
stage outputs succeed, in which case its payload carries all three outputs;
otherwise it carries no payload and its error names the first failing stage
and that stage's own error, so a caller receives either a complete record or
one stage-identifying error, never a partial record presented as success. -/
theorem claimC8_complete_record_or_staged_error (executionId : String)
    (ing ana syn : AgentOutput) :
    (runStages executionId ing ana syn).success = (ing.success && ana.success && syn.success) ∧
    (runStages executionId ing ana syn).data =
      (if ing.success && ana.success && syn.success then
        some { executionId := executionId, ingestion := ing, analysis := ana, synthesis := syn }
       else none) ∧
    (runStages executionId ing ana syn).error =
      (if ing.success = false then some ("Ingestion failed: " ++ errText ing.error)
       else if ana.success = false then some ("Analysis failed: " ++ errText ana.error)
       else if syn.success = false then some ("Synthesis failed: " ++ errText syn.error)
       else none) := by
  cases hi : ing.success <;> cases ha : ana.success <;> cases hs : syn.success <;>
    simp [runStages, hi, ha, hs]

/-- Claim C8, witness: the statement at one successful and one failing stage
combination. -/
theorem claimC8_witness :
    (runStages "exec-8" ⟨true, none, none⟩ ⟨false, none, some "boom"⟩
        ⟨true, none, none⟩).success =
      ((⟨true, none, none⟩ : AgentOutput).success &&
        (⟨false, none, some "boom"⟩ : AgentOutput).success &&
        (⟨true, none, none⟩ : AgentOutput).success) ∧
    (runStages "exec-8" ⟨true, none, none⟩ ⟨false, none, some "boom"⟩
        ⟨true, none, none⟩).data =
      (if (⟨true, none, none⟩ : AgentOutput).success &&
          (⟨false, none, some "boom"⟩ : AgentOutput).success &&
          (⟨true, none, none⟩ : AgentOutput).success then
        some { executionId := "exec-8", ingestion := ⟨true, none, none⟩,
               analysis := ⟨false, none, some "boom"⟩, synthesis := ⟨true, none, none⟩ }
       else none) ∧
    (runStages "exec-8" ⟨true, none, none⟩ ⟨false, none, some "boom"⟩
        ⟨true, none, none⟩).error =
      (if (⟨true, none, none⟩ : AgentOutput).success = false then
        some ("Ingestion failed: " ++ errText (⟨true, none, none⟩ : AgentOutput).error)
       else if (⟨false, none, some "boom"⟩ : AgentOutput).success = false then
        some ("Analysis failed: " ++ errText (⟨false, none, some "boom"⟩ : AgentOutput).error)
       else if (⟨true, none, none⟩ : AgentOutput).success = false then
        some ("Synthesis failed: " ++ errText (⟨true, none, none⟩ : AgentOutput).error)
       else none) :=
  claimC8_complete_record_or_staged_error "exec-8" ⟨true, none, none⟩
    ⟨false, none, some "boom"⟩ ⟨true, none, none⟩

/-- Claim C10: on every object-shaped input the analysis agent succeeds
deterministically with iteration count 3 and confidence 0.89; the mock
confidences 0.65, 0.77, 0.89 are strictly increasing and first reach the 0.80
threshold at the third iteration; and no output of the agent ever carries the
`Analysis failed to produce findings` error (valid inputs yield `error = none`,
the invalid input yields the distinct validation error). -/
theorem claimC10_analysis_deterministic (inp : AnalysisInput) :
    (executeAnalysis (some inp)).success = true ∧
    (executeAnalysis (some inp)).error = none ∧
    (executeAnalysis (some inp)).data =
      some (.analysis
        { analysisType := inp.policyType
          region := inp.region
          findings := (performAnalysis inp 2).1
          confidence := 0.89
          iterationCount := 3 }) ∧
    (performAnalysis inp 0).2 < (performAnalysis inp 1).2 ∧
    (performAnalysis inp 1).2 < (performAnalysis inp 2).2 ∧
    (performAnalysis inp 0).2 < confidenceThreshold ∧
    (performAnalysis inp 1).2 < confidenceThreshold ∧
    confidenceThreshold ≤ (performAnalysis inp 2).2 ∧
    (executeAnalysis none).error = some "Invalid analysis input" := by
  have hA := executeAnalysis_eval inp
  refine ⟨by rw [hA], by rw [hA], by rw [hA], ?_, ?_, ?_, ?_, ?_, rfl⟩ <;>
    norm_num [performAnalysis, confidenceThreshold]

/-- Claim C10, witness: the statement at a concrete valid analysis input. -/
theorem claimC10_witness :
    (executeAnalysis (some sampleAnalysisInput)).success = true ∧
    (executeAnalysis (some sampleAnalysisInput)).error = none ∧
    (executeAnalysis (some sampleAnalysisInput)).data =
      some (.analysis
        { analysisType := sampleAnalysisInput.policyType
          region := sampleAnalysisInput.region
          findings := (performAnalysis sampleAnalysisInput 2).1
          confidence := 0.89
          iterationCount := 3 }) ∧
    (performAnalysis sampleAnalysisInput 0).2 < (performAnalysis sampleAnalysisInput 1).2 ∧
    (performAnalysis sampleAnalysisInput 1).2 < (performAnalysis sampleAnalysisInput 2).2 ∧
    (performAnalysis sampleAnalysisInput 0).2 < confidenceThreshold ∧
    (performAnalysis sampleAnalysisInput 1).2 < confidenceThreshold ∧
    confidenceThreshold ≤ (performAnalysis sampleAnalysisInput 2).2 ∧
    (executeAnalysis none).error = some "Invalid analysis input" :=
  claimC10_analysis_deterministic sampleAnalysisInput

end Acpa
